import Mathlib

/-!
Shallow embedding of `src/app.py` (a Flask course-catalog CRUD app) and
proofs about its persistence and request-handling behaviour.

Modelling choices, each mirroring the Python source:

* A stored course record (a JSON object / Python dict) is an association
  list of string fields; records loaded from storage may lack keys.
* The backing file `course_catalog.json` is a `FileState`: absent,
  unreadable/unparsable (`corrupt`), or holding a catalog.  A `Store`
  pairs the file with a count of completed writes, so that "the file is
  written" is observable in the model.
* Python exceptions (`KeyError` from `d[k]`, `AttributeError` from
  `None.strip()`) are `Except Unit`; the `try/except` blocks of the
  handlers catch them, which in the model means the handler functions are
  total and map the error case to `Response.noResponse` (the Python
  handler falls out of its `except` clause returning `None`).
* `flash(msg, category)` calls are collected in the result's `flashes`
  list; `render_template` and `redirect` become the `Response` type
  (a render is an HTTP 200 page, a redirect is not).
-/

/-- A stored record: a JSON object / Python dict as an association list of
string fields (`course_catalog.json` holds a JSON array of these). -/
abbrev Record := List (String × String)

/-- Field lookup in a record, Python `d.get(key)`: `none` when absent. -/
def getField : Record → String → Option String
  | [], _ => none
  | (k, v) :: rest, key => if k = key then some v else getField rest key

/-- Python subscript `d[key]`: raises `KeyError` when the key is absent. -/
def getItem (r : Record) (key : String) : Except Unit String :=
  match getField r key with
  | some v => Except.ok v
  | none => Except.error ()

/-- `True` when the record carries a `"code"` field (well-formed for
lookup/delete purposes). -/
def hasCode (r : Record) : Bool := (getField r "code").isSome

/-- The state of the backing file `COURSE_FILE = course_catalog.json`:
missing, present but unreadable or unparsable, or a parsed catalog. -/
inductive FileState where
  | absent
  | corrupt
  | good (catalog : List Record)
  deriving DecidableEq

/-- The persistent store: the backing file plus a count of completed
writes (so that "the file was rewritten" is observable). -/
structure Store where
  file : FileState
  writes : Nat
  deriving DecidableEq

/-- `load_courses` (app.py lines 53-63): returns `[]` when the file is
absent (logged warning) and `[]` when reading or parsing raises (logged
error); otherwise the parsed catalog.  Total: it never raises. -/
def load_courses : FileState → List Record
  | FileState.absent => []
  | FileState.corrupt => []
  | FileState.good catalog => catalog

/-- `save_courses_to_file` (app.py lines 65-72): overwrites the backing
file with the full list (a successful write; the Python write-failure
branch only logs and is not modelled as a distinct outcome). -/
def save_courses_to_file (courses : List Record) (st : Store) : Store :=
  { file := FileState.good courses, writes := st.writes + 1 }

/-- `save_courses` (app.py lines 74-87): load the catalog, append the new
record, save the whole list back. -/
def save_courses (data : Record) (st : Store) : Store :=
  save_courses_to_file (load_courses st.file ++ [data]) st

/-- What a handler hands back to Flask: a rendered page (HTTP 200, with
the records passed to the template), a redirect, or no value at all
(the Python handler swallowed an exception and fell through). -/
inductive Response where
  | render (template : String) (payload : List Record)
  | redirect (target : String)
  | noResponse
  deriving DecidableEq

/-- Outcome of one request: the response, the flashed notices
(message, category) in order, and the store afterwards. -/
structure HandlerResult where
  response : Response
  flashes : List (String × String)
  store : Store
  deriving DecidableEq

/-- The flash message of app.py lines 122 and 189. -/
def notFoundMessage (code : String) : String :=
  "No course found with code '" ++ code ++ "'."

/-- The flash message of app.py line 151. -/
def requiredFieldsMessage : String :=
  "Fields marked with * are the required fields."

/-- The flash message of app.py line 166. -/
def courseAddedMessage : String := "Course added successfully!"

/-- The flash message of app.py line 192. -/
def courseDeletedMessage : String := "Course deleted successfully!"

/-- `course_catalog` (app.py lines 96-109): load and render the list. -/
def course_catalog (st : Store) : HandlerResult :=
  { response := Response.render "course_catalog.html" (load_courses st.file)
    flashes := []
    store := st }

/-- The generator expression of app.py line 117:
`next((course for course in courses if course['code'] == code), None)`.
Scans left to right, stops at the first match, raises `KeyError` if a
record lacking `'code'` is reached first. -/
def findByCode (code : String) : List Record → Except Unit (Option Record)
  | [] => Except.ok none
  | course :: rest =>
    match getItem course "code" with
    | Except.error e => Except.error e
    | Except.ok c =>
      if c = code then Except.ok (some course) else findByCode code rest

/-- `course_details` (app.py lines 111-131): find the first record with
the given code; if none, flash not-found and redirect to the catalog;
else render it.  A raised `KeyError` is caught (lines 130-131) and the
handler returns no value. -/
def course_details (code : String) (st : Store) : HandlerResult :=
  match findByCode code (load_courses st.file) with
  | Except.error _ =>
    { response := Response.noResponse, flashes := [], store := st }
  | Except.ok none =>
    { response := Response.redirect "course_catalog"
      flashes := [(notFoundMessage code, "error")]
      store := st }
  | Except.ok (some course) =>
    { response := Response.render "course_details.html" [course]
      flashes := []
      store := st }

/-- The POST form data of `/add_course`: each field is present
(`some value`) or absent from the submitted form (`none`),
matching `request.form.get(key)`. -/
structure Form where
  name : Option String
  code : Option String
  instructor : Option String
  semester : Option String
  deriving DecidableEq

/-- Python `str.strip()` with no argument: drop leading and trailing
whitespace characters. -/
def pyStrip (s : String) : String :=
  String.mk ((s.data.dropWhile Char.isWhitespace).reverse.dropWhile Char.isWhitespace).reverse

/-- Python `request.form.get(key).strip()`: raises `AttributeError` when
the key is absent (`None.strip()`), else strips whitespace. -/
def getStrip : Option String → Except Unit String
  | none => Except.error ()
  | some s => Except.ok (pyStrip s)

/-- App.py lines 139-142: read and strip the four form fields in order;
the first absent field raises. -/
def readFormFields (form : Form) :
    Except Unit (String × String × String × String) :=
  match getStrip form.name with
  | Except.error e => Except.error e
  | Except.ok course_name =>
    match getStrip form.code with
    | Except.error e => Except.error e
    | Except.ok course_code =>
      match getStrip form.instructor with
      | Except.error e => Except.error e
      | Except.ok course_instructor =>
        match getStrip form.semester with
        | Except.error e => Except.error e
        | Except.ok course_semester =>
          Except.ok (course_name, course_code, course_instructor, course_semester)

/-- The dict built at app.py lines 159-164 from the stripped fields. -/
def new_course (n c i s : String) : Record :=
  [("name", n), ("code", c), ("instructor", i), ("semester", s)]

/-- The POST branch of `add_course` (app.py lines 133-176): strip the
four fields (raising if any key is absent; the exception is caught at
lines 175-176 and the handler returns no value); if `name`, `code` or
`instructor` strips to empty, flash the validation notice and re-render
the form; else build the record, append it via `save_courses`, flash
success and redirect to the catalog. -/
def add_course_post (form : Form) (st : Store) : HandlerResult :=
  match readFormFields form with
  | Except.error _ =>
    { response := Response.noResponse, flashes := [], store := st }
  | Except.ok (course_name, course_code, course_instructor, course_semester) =>
    if course_name = "" ∨ course_code = "" ∨ course_instructor = "" then
      { response := Response.render "add_course.html" []
        flashes := [(requiredFieldsMessage, "error")]
        store := st }
    else
      { response := Response.redirect "course_catalog"
        flashes := [(courseAddedMessage, "success")]
        store := save_courses
          (new_course course_name course_code course_instructor course_semester) st }

/-- The list comprehension of app.py line 184:
`[course for course in courses if course['code'] != code]`.
Visits every record; raises `KeyError` at the first record lacking
`'code'`. -/
def filterOutCode (code : String) : List Record → Except Unit (List Record)
  | [] => Except.ok []
  | course :: rest =>
    match getItem course "code" with
    | Except.error e => Except.error e
    | Except.ok c =>
      match filterOutCode code rest with
      | Except.error e => Except.error e
      | Except.ok kept =>
        Except.ok (if c ≠ code then course :: kept else kept)

/-- `delete_course` (app.py lines 178-197): build the list of records
whose code differs; if the length is unchanged flash not-found, else
save the filtered list and flash success; either way redirect to the
catalog.  A raised `KeyError` is caught (lines 196-197) and the handler
returns no value. -/
def delete_course (code : String) (st : Store) : HandlerResult :=
  let courses := load_courses st.file
  match filterOutCode code courses with
  | Except.error _ =>
    { response := Response.noResponse, flashes := [], store := st }
  | Except.ok updated_courses =>
    if courses.length = updated_courses.length then
      { response := Response.redirect "course_catalog"
        flashes := [(notFoundMessage code, "error")]
        store := st }
    else
      { response := Response.redirect "course_catalog"
        flashes := [(courseDeletedMessage, "success")]
        store := save_courses_to_file updated_courses st }

/-- C3: `load_courses` is a total function (it never raises, by its type
`FileState → List Record`); on an absent backing file it returns the
empty catalog, and on a read or parse failure it returns the empty
catalog as well. -/
theorem load_courses_total_and_empty_on_failure :
    load_courses FileState.absent = [] ∧ load_courses FileState.corrupt = [] := by
  constructor <;> rfl

/-- C2: appending a record `r` to a store whose file holds catalog `L`
and then loading yields exactly `L ++ [r]`: the last element is `r`, and
the prior elements are `L` unchanged and in their original order. -/
theorem append_then_load (L : List Record) (r : Record) (w : Nat) :
    load_courses (save_courses r { file := FileState.good L, writes := w }).file
      = L ++ [r] ∧
    (load_courses (save_courses r { file := FileState.good L, writes := w }).file).getLast?
      = some r ∧
    (load_courses (save_courses r { file := FileState.good L, writes := w }).file).dropLast
      = L := by
  refine ⟨rfl, ?_, ?_⟩
  · simp [save_courses, save_courses_to_file, load_courses]
  · simp [save_courses, save_courses_to_file, load_courses]

/-- Helper: a record that passes the `hasCode` check carries some code value. -/
theorem hasCode_exists {r : Record} (h : hasCode r = true) :
    ∃ v, getField r "code" = some v := by
  unfold hasCode at h
  cases hg : getField r "code" with
  | none => rw [hg] at h; simp at h
  | some v => exact ⟨v, rfl⟩

/-- Helper: on a catalog whose records all carry a code, the delete
comprehension raises nothing and computes an ordinary filter. -/
theorem filterOutCode_wf (c : String) :
    ∀ L : List Record, (∀ r ∈ L, hasCode r = true) →
      filterOutCode c L =
        Except.ok (L.filter fun r => !(getField r "code" == some c))
  | [], _ => rfl
  | r :: rest, h => by
    obtain ⟨v, hv⟩ := hasCode_exists (h r (List.mem_cons_self r rest))
    have ih := filterOutCode_wf c rest fun x hx => h x (List.mem_cons_of_mem r hx)
    by_cases hvc : v = c
    · simp [filterOutCode, getItem, hv, ih, hvc, List.filter_cons]
    · simp [filterOutCode, getItem, hv, ih, hvc, List.filter_cons]

/-- Helper: a record lacking a code anywhere in the catalog makes the
delete comprehension raise `KeyError`. -/
theorem filterOutCode_error (c : String) :
    ∀ L : List Record, (∃ r ∈ L, hasCode r = false) →
      filterOutCode c L = Except.error ()
  | r :: rest, h => by
    obtain ⟨b, hb, hbc⟩ := h
    rcases List.mem_cons.mp hb with hbr | hbrest
    · subst hbr
      have : getField b "code" = none := by
        unfold hasCode at hbc
        cases hg : getField b "code" with
        | none => rfl
        | some v => rw [hg] at hbc; simp at hbc
      simp [filterOutCode, getItem, this]
    · have ih := filterOutCode_error c rest ⟨b, hbrest, hbc⟩
      cases hg : getField r "code" with
      | none => simp [filterOutCode, getItem, hg]
      | some v => simp [filterOutCode, getItem, hg, ih]

/-- Helper: on a catalog whose records all carry a code, the details
lookup raises nothing and computes `List.find?`. -/
theorem findByCode_wf (c : String) :
    ∀ L : List Record, (∀ r ∈ L, hasCode r = true) →
      findByCode c L =
        Except.ok (L.find? fun r => getField r "code" == some c)
  | [], _ => rfl
  | r :: rest, h => by
    obtain ⟨v, hv⟩ := hasCode_exists (h r (List.mem_cons_self r rest))
    have ih := findByCode_wf c rest fun x hx => h x (List.mem_cons_of_mem r hx)
    by_cases hvc : v = c
    · simp [findByCode, getItem, hv, hvc, List.find?_cons]
    · simp [findByCode, getItem, hv, ih, hvc, List.find?_cons]

/-- Helper: the details lookup raises when a record lacking a code is
reached before any record matching the requested code. -/
theorem findByCode_prefix_error (c : String) :
    ∀ (L1 : List Record) (r : Record) (L2 : List Record),
      hasCode r = false → (∀ x ∈ L1, getField x "code" ≠ some c) →
      findByCode c (L1 ++ r :: L2) = Except.error ()
  | [], r, L2, hr, _ => by
    have : getField r "code" = none := by
      unfold hasCode at hr
      cases hg : getField r "code" with
      | none => rfl
      | some v => rw [hg] at hr; simp at hr
    simp [findByCode, getItem, this]
  | x :: rest, r, L2, hr, h1 => by
    have hx := h1 x (List.mem_cons_self x rest)
    have ih := findByCode_prefix_error c rest r L2 hr
      fun y hy => h1 y (List.mem_cons_of_mem x hy)
    cases hg : getField x "code" with
    | none => simp [findByCode, getItem, hg]
    | some v =>
      have hvc : v ≠ c := fun hh => hx (by rw [hg, hh])
      simp [findByCode, getItem, hg, hvc, ih]

/-- Helper: a form missing any of the four keys makes the field reads
raise `AttributeError`. -/
theorem readFormFields_missing (form : Form)
    (h : form.name = none ∨ form.code = none ∨ form.instructor = none ∨
      form.semester = none) :
    readFormFields form = Except.error () := by
  obtain ⟨n, c, i, s⟩ := form
  cases n <;> cases c <;> cases i <;> cases s <;>
    simp_all [readFormFields, getStrip]

/-- C1: on a stored catalog of course records (each carrying its `code`
field) the delete operation removes every record whose code equals `c`
(the comprehension keeps exactly the non-matching records, in their
original relative order: `List.filter`), rewrites the file only when at
least one record was removed (the write counter moves only in the second
branch), and flashes the not-found notice exactly when no record
matched.  The malformed-storage case (a record lacking `code`) is
treated separately. -/
theorem delete_course_spec (c : String) (L : List Record) (w : Nat)
    (hw : ∀ r ∈ L, hasCode r = true) :
    ((∀ r ∈ L, getField r "code" ≠ some c) →
      delete_course c { file := FileState.good L, writes := w } =
        { response := Response.redirect "course_catalog"
          flashes := [(notFoundMessage c, "error")]
          store := { file := FileState.good L, writes := w } }) ∧
    ((∃ r ∈ L, getField r "code" = some c) →
      delete_course c { file := FileState.good L, writes := w } =
        { response := Response.redirect "course_catalog"
          flashes := [(courseDeletedMessage, "success")]
          store :=
            { file := FileState.good (L.filter fun r => !(getField r "code" == some c)),
              writes := w + 1 } }) := by
  have hfilter := filterOutCode_wf c L hw
  constructor
  · intro hnone
    have heq : L.filter (fun r => !(getField r "code" == some c)) = L := by
      apply List.filter_eq_self.mpr
      intro a ha
      simp [hnone a ha]
    simp [delete_course, load_courses, hfilter, heq, save_courses_to_file]
  · intro ⟨r, hr, hrc⟩
    have hlt : (L.filter fun r => !(getField r "code" == some c)).length < L.length := by
      apply List.length_filter_lt_length_iff_exists.mpr
      exact ⟨r, hr, by simp [hrc]⟩
    have hne : ¬ L.length = (L.filter fun r => !(getField r "code" == some c)).length :=
      fun hh => absurd hh.symm (Nat.ne_of_lt hlt)
    simp [delete_course, load_courses, hfilter, hne, save_courses_to_file]

/-- C1 witness: deleting code CS301 from a two-record catalog removes
the matching record, keeps the other, writes the file once and flashes
success; the theorem applied at a concrete catalog. -/
theorem delete_course_spec_witness :
    delete_course "CS301"
        { file := FileState.good [[("code", "CS301"), ("name", "Algorithms")],
            [("code", "CS101"), ("name", "Intro")]]
          writes := 0 } =
      { response := Response.redirect "course_catalog"
        flashes := [(courseDeletedMessage, "success")]
        store := { file := FileState.good [[("code", "CS101"), ("name", "Intro")]]
                   writes := 1 } } := by
  have h := (delete_course_spec "CS301"
      [[("code", "CS301"), ("name", "Algorithms")], [("code", "CS101"), ("name", "Intro")]]
      0 (by decide)).2 (by decide)
  exact h.trans (by decide)

/-- C4: a POST to `/add_course` in which all four fields are present but
`name`, `code` or `instructor` strips to empty re-renders the form (an
HTTP 200 render, not a redirect) with the validation notice, and leaves
the store untouched: nothing is appended and the file is not written. -/
theorem add_course_validation_spec (n c i s : String) (st : Store)
    (h : pyStrip n = "" ∨ pyStrip c = "" ∨ pyStrip i = "") :
    add_course_post
        { name := some n, code := some c, instructor := some i, semester := some s }
        st =
      { response := Response.render "add_course.html" []
        flashes := [(requiredFieldsMessage, "error")]
        store := st } := by
  simp only [add_course_post, readFormFields, getStrip]
  rw [if_pos h]

/-- C4 witness: an empty instructor field (with non-empty name and code)
re-renders the form with the validation notice and leaves the store
unchanged; the theorem applied at a concrete form and store. -/
theorem add_course_validation_spec_witness :
    add_course_post
        { name := some "Algorithms", code := some "CS301",
          instructor := some "   ", semester := some "Fall" }
        { file := FileState.good [], writes := 0 } =
      { response := Response.render "add_course.html" []
        flashes := [(requiredFieldsMessage, "error")]
        store := { file := FileState.good [], writes := 0 } } :=
  add_course_validation_spec "Algorithms" "CS301" "   " "Fall"
    { file := FileState.good [], writes := 0 }
    (Or.inr (Or.inr (by decide)))

/-- C5 evaluation: a POST with valid name, code and instructor but with
the `semester` key absent from the form raises `AttributeError` inside
the field reads (`None.strip()`); the handler's catch-all swallows it,
so no record is appended, nothing is flashed, the file is not written
and no response value is produced — the record is NOT constructed with
an empty-default semester as the spec states. -/
theorem add_course_semester_key_absent :
    add_course_post
        { name := some "Algorithms", code := some "CS301",
          instructor := some "Dr. A", semester := none }
        { file := FileState.good [], writes := 0 } =
      { response := Response.noResponse
        flashes := []
        store := { file := FileState.good [], writes := 0 } } := by decide

/-- C9: a POST to `/add_course` in which any of the four form keys is
entirely absent raises inside the field reads; the catch-all swallows
the exception, the handler produces no response value, no validation
notice is flashed, and the store (catalog and file) is unchanged. -/
theorem add_course_absent_key_spec (form : Form) (st : Store)
    (h : form.name = none ∨ form.code = none ∨ form.instructor = none ∨
      form.semester = none) :
    add_course_post form st =
      { response := Response.noResponse, flashes := [], store := st } := by
  simp [add_course_post, readFormFields_missing form h]

/-- C9 witness: a form missing only the `instructor` key yields no
response, no flash and an unchanged store; the theorem applied at a
concrete form and store. -/
theorem add_course_absent_key_spec_witness :
    add_course_post
        { name := some "Algorithms", code := some "CS301",
          instructor := none, semester := some "Fall" }
        { file := FileState.good [[("code", "CS101")]], writes := 3 } =
      { response := Response.noResponse
        flashes := []
        store := { file := FileState.good [[("code", "CS101")]], writes := 3 } } :=
  add_course_absent_key_spec _ _ (Or.inr (Or.inr (Or.inl rfl)))

/-- C6: on a stored catalog of course records (each carrying its `code`
field), requesting details for a code carried by no record does not
error: it flashes exactly the not-found notice and redirects to the
catalog list, leaving the store untouched; and when some record carries
the code, the handler renders the first such record. -/
theorem course_details_spec (c : String) (L : List Record) (w : Nat)
    (hw : ∀ r ∈ L, hasCode r = true) :
    ((∀ r ∈ L, getField r "code" ≠ some c) →
      course_details c { file := FileState.good L, writes := w } =
        { response := Response.redirect "course_catalog"
          flashes := [(notFoundMessage c, "error")]
          store := { file := FileState.good L, writes := w } }) ∧
    (∀ r0, (L.find? fun r => getField r "code" == some c) = some r0 →
      course_details c { file := FileState.good L, writes := w } =
        { response := Response.render "course_details.html" [r0]
          flashes := []
          store := { file := FileState.good L, writes := w } }) := by
  have hfind := findByCode_wf c L hw
  constructor
  · intro hnone
    have h0 : (L.find? fun r => getField r "code" == some c) = none := by
      apply List.find?_eq_none.mpr
      intro x hx
      simp [hnone x hx]
    simp [course_details, load_courses, hfind, h0]
  · intro r0 hr0
    simp [course_details, load_courses, hfind, hr0]

/-- C6 witness: an absent code redirects with the not-found notice, and
a code carried by two records renders the first of them; the theorem
applied at concrete catalogs. -/
theorem course_details_spec_witness :
    course_details "CS999" { file := FileState.good [[("code", "CS101")]], writes := 0 } =
      { response := Response.redirect "course_catalog"
        flashes := [(notFoundMessage "CS999", "error")]
        store := { file := FileState.good [[("code", "CS101")]], writes := 0 } } ∧
    course_details "CS301"
        { file := FileState.good [[("code", "CS101")],
            [("code", "CS301"), ("name", "Algorithms")],
            [("code", "CS301"), ("name", "Duplicate")]]
          writes := 0 } =
      { response := Response.render "course_details.html"
          [[("code", "CS301"), ("name", "Algorithms")]]
        flashes := []
        store :=
          { file := FileState.good [[("code", "CS101")],
              [("code", "CS301"), ("name", "Algorithms")],
              [("code", "CS301"), ("name", "Duplicate")]],
            writes := 0 } } :=
  ⟨(course_details_spec "CS999" [[("code", "CS101")]] 0 (by decide)).1 (by decide),
   (course_details_spec "CS301"
      [[("code", "CS101")], [("code", "CS301"), ("name", "Algorithms")],
        [("code", "CS301"), ("name", "Duplicate")]]
      0 (by decide)).2 [("code", "CS301"), ("name", "Algorithms")] (by decide)⟩

/-- C7: code uniqueness is not enforced on add.  For a catalog already
containing a record `r0` with the submitted (stripped) code, a valid
POST appends the new record with no uniqueness check: the handler
redirects with the success notice, the file now holds the old catalog
plus the new record at the end, the old record is still present, and
the new record carries the same code. -/
theorem add_course_duplicate_code (n c i s : String) (L : List Record)
    (w : Nat) (r0 : Record)
    (hn : ¬ pyStrip n = "") (hc : ¬ pyStrip c = "") (hi : ¬ pyStrip i = "")
    (hr : r0 ∈ L) (hcode : getField r0 "code" = some (pyStrip c)) :
    (add_course_post
        { name := some n, code := some c, instructor := some i, semester := some s }
        { file := FileState.good L, writes := w } =
      { response := Response.redirect "course_catalog"
        flashes := [(courseAddedMessage, "success")]
        store :=
          { file := FileState.good
              (L ++ [new_course (pyStrip n) (pyStrip c) (pyStrip i) (pyStrip s)]),
            writes := w + 1 } }) ∧
    r0 ∈ L ++ [new_course (pyStrip n) (pyStrip c) (pyStrip i) (pyStrip s)] ∧
    getField (new_course (pyStrip n) (pyStrip c) (pyStrip i) (pyStrip s)) "code"
      = some (pyStrip c) ∧
    (L ++ [new_course (pyStrip n) (pyStrip c) (pyStrip i) (pyStrip s)]).getLast?
      = some (new_course (pyStrip n) (pyStrip c) (pyStrip i) (pyStrip s)) := by
  refine ⟨?_, ?_, ?_, ?_⟩
  · have hcond : ¬ (pyStrip n = "" ∨ pyStrip c = "" ∨ pyStrip i = "") := by
      push_neg
      exact ⟨hn, hc, hi⟩
    simp only [add_course_post, readFormFields, getStrip]
    rw [if_neg hcond]
    simp [save_courses, save_courses_to_file, load_courses]
  · exact List.mem_append_left _ hr
  · simp [new_course, getField]
  · simp

/-- C7 witness: adding a second record with code CS301 to a catalog
already holding one succeeds, keeps the old record and puts the new one
at the end; the theorem applied at a concrete catalog and form. -/
theorem add_course_duplicate_code_witness :
    add_course_post
        { name := some "Advanced Algorithms", code := some "CS301",
          instructor := some "Dr. B", semester := some "Spring" }
        { file := FileState.good [[("code", "CS301"), ("name", "Algorithms")]]
          writes := 0 } =
      { response := Response.redirect "course_catalog"
        flashes := [(courseAddedMessage, "success")]
        store :=
          { file := FileState.good [[("code", "CS301"), ("name", "Algorithms")],
              [("name", "Advanced Algorithms"), ("code", "CS301"),
                ("instructor", "Dr. B"), ("semester", "Spring")]],
            writes := 1 } } := by
  have h := (add_course_duplicate_code "Advanced Algorithms" "CS301" "Dr. B" "Spring"
      [[("code", "CS301"), ("name", "Algorithms")]] 0
      [("code", "CS301"), ("name", "Algorithms")]
      (by decide) (by decide) (by decide) (by decide) (by decide)).1
  exact h.trans (by decide)

/-- C8: every exception a handler body can raise in the model (missing
form key in the add handler, missing `code` field reached by the delete
comprehension or the details lookup) is caught at the handler boundary
rather than propagated — the handler functions are total — and on these
failure paths the handler returns no response value at all, with no
notice flashed and the store unchanged. -/
theorem handlers_swallow_exceptions :
    (∀ (form : Form) (st : Store), readFormFields form = Except.error () →
      add_course_post form st =
        { response := Response.noResponse, flashes := [], store := st }) ∧
    (∀ (c : String) (st : Store),
      filterOutCode c (load_courses st.file) = Except.error () →
      delete_course c st =
        { response := Response.noResponse, flashes := [], store := st }) ∧
    (∀ (c : String) (st : Store),
      findByCode c (load_courses st.file) = Except.error () →
      course_details c st =
        { response := Response.noResponse, flashes := [], store := st }) := by
  refine ⟨?_, ?_, ?_⟩
  · intro form st h
    simp [add_course_post, h]
  · intro c st h
    simp [delete_course, h]
  · intro c st h
    simp [course_details, h]

/-- C8 witness: each of the three handlers, run on an input that raises
inside its body, returns no response, flashes nothing and leaves the
store unchanged; the theorem applied at concrete inputs. -/
theorem handlers_swallow_exceptions_witness :
    add_course_post { name := none, code := none, instructor := none, semester := none }
        { file := FileState.absent, writes := 0 } =
      { response := Response.noResponse, flashes := []
        store := { file := FileState.absent, writes := 0 } } ∧
    delete_course "CS301" { file := FileState.good [[("name", "Orphan")]], writes := 0 } =
      { response := Response.noResponse, flashes := []
        store := { file := FileState.good [[("name", "Orphan")]], writes := 0 } } ∧
    course_details "CS301" { file := FileState.good [[("name", "Orphan")]], writes := 0 } =
      { response := Response.noResponse, flashes := []
        store := { file := FileState.good [[("name", "Orphan")]], writes := 0 } } :=
  ⟨handlers_swallow_exceptions.1 _ _ rfl,
   handlers_swallow_exceptions.2.1 _ _ rfl,
   handlers_swallow_exceptions.2.2 _ _ rfl⟩

/-- C10 counterexample: the details lookup does NOT access the code
field of every stored record — it short-circuits at the first match.
On a catalog holding a matching record before a record that lacks the
`code` key, the handler renders the match: no exception is raised and a
response is produced, contradicting the claim that every catalog
containing a code-less record drives the handler onto its exception
path with no response. -/
theorem course_details_malformed_short_circuit :
    course_details "CS301"
        { file := FileState.good [[("code", "CS301")], [("name", "Orphan")]]
          writes := 0 } =
      { response := Response.render "course_details.html" [[("code", "CS301")]]
        flashes := []
        store := { file := FileState.good [[("code", "CS301")], [("name", "Orphan")]]
                   writes := 0 } } ∧
    (course_details "CS301"
        { file := FileState.good [[("code", "CS301")], [("name", "Orphan")]]
          writes := 0 }).response ≠ Response.noResponse := by
  constructor
  · decide
  · decide

/-- C10 as amended: the delete comprehension accesses the `code` field
of every stored record, so on any catalog containing a record lacking
the key it raises, the handler takes its exception path, produces no
response, removes nothing and does not rewrite the file; the details
lookup raises in the same way exactly on reaching a code-less record
before any match, in particular whenever no record preceding the first
code-less record carries the requested code. -/
theorem malformed_record_access_spec (c : String) (st : Store) :
    ((∃ r ∈ load_courses st.file, hasCode r = false) →
      delete_course c st =
        { response := Response.noResponse, flashes := [], store := st }) ∧
    (∀ (L1 : List Record) (r : Record) (L2 : List Record) (w : Nat),
      st = { file := FileState.good (L1 ++ r :: L2), writes := w } →
      hasCode r = false →
      (∀ x ∈ L1, getField x "code" ≠ some c) →
      course_details c st =
        { response := Response.noResponse, flashes := [], store := st }) := by
  constructor
  · intro h
    have herr := filterOutCode_error c (load_courses st.file) h
    simp [delete_course, herr]
  · intro L1 r L2 w hst hr h1
    subst hst
    have herr := findByCode_prefix_error c L1 r L2 hr h1
    simp [course_details, load_courses, herr]

/-- C10 amended witness: deleting from a catalog whose second record
lacks a code yields no response and leaves the store unchanged even
though the first record matches; requesting details for a code carried
by no record of the same catalog also yields no response; the theorem
applied at a concrete catalog. -/
theorem malformed_record_access_spec_witness :
    delete_course "CS301"
        { file := FileState.good [[("code", "CS301")], [("name", "Orphan")]]
          writes := 0 } =
      { response := Response.noResponse, flashes := []
        store := { file := FileState.good [[("code", "CS301")], [("name", "Orphan")]]
                   writes := 0 } } ∧
    course_details "CS999"
        { file := FileState.good [[("code", "CS301")], [("name", "Orphan")]]
          writes := 0 } =
      { response := Response.noResponse, flashes := []
        store := { file := FileState.good [[("code", "CS301")], [("name", "Orphan")]]
                   writes := 0 } } :=
  ⟨(malformed_record_access_spec "CS301"
      { file := FileState.good [[("code", "CS301")], [("name", "Orphan")]], writes := 0 }).1
      ⟨[("name", "Orphan")], by decide, by decide⟩,
   (malformed_record_access_spec "CS999"
      { file := FileState.good [[("code", "CS301")], [("name", "Orphan")]], writes := 0 }).2
      [[("code", "CS301")]] [("name", "Orphan")] [] 0 rfl (by decide) (by decide)⟩
